import Mathlib

/-!
Window-frame channel handler (`linux/web_renderer_plugin.cc`)

A shallow embedding of the GTK/Flutter plugin source: the generic channel value, the
frame and monitor encoders, the `setWindowFrame` handler and the method dispatcher,
followed by the properties proved about them.

Pointers become values: a `GtkWindow*` that the handler mutates is a `GtkWindow` record
that is passed in and returned; a nullable pointer is an `Option`.
-/

namespace WebRenderer

/-! ## Numbers -/

/-- Smallest `gint` (32-bit signed). -/
def G_MININT : Int := -2147483648

/-- Largest `gint` (32-bit signed), GLib's `G_MAXINT`. -/
def G_MAXINT : Int := 2147483647

/-- A C `double`. A finite double is a dyadic number `m * 2 ^ e`; the two infinities and
NaN are kept apart. The type is wider than IEEE binary64 (any mantissa is allowed), so a
statement over all `Double` covers every machine double. No arithmetic is performed on
doubles by the plugin: they are only produced from a `gint` and cast back to one. -/
inductive Double where
  | finite (m : Int) (e : Int)
  | inf (negative : Bool)
  | nan
  deriving DecidableEq, Repr

/-- The literal `0.0`. -/
def Double.zero : Double := .finite 0 0

/-- Implicit conversion `gint → double` (the argument of `fl_value_new_float`). Every
32-bit integer is a double, so the conversion is exact. -/
def Double.ofGint (x : Int) : Double := .finite x 0

/-- The number a finite double stands for. -/
def Double.toRat? : Double → Option ℚ
  | .finite m e => some ((m : ℚ) * (2 : ℚ) ^ e)
  | _ => none

/-- The integer obtained by dropping the fractional part (rounding toward zero); infinities
and NaN have none. -/
def Double.trunc : Double → Option Int
  | .finite m e =>
      some (if 0 ≤ e then m * 2 ^ e.toNat else Int.tdiv m (2 ^ (-e).toNat))
  | _ => none

/-- The C++ cast `static_cast<gint>(d)`: the truncation of `d` when that is representable.
Otherwise the standard leaves the result open; `undef d` is the integer the target machine
produces there. -/
def static_cast_gint (undef : Double → Int) (d : Double) : Int :=
  match d.trunc with
  | some t => if G_MININT ≤ t ∧ t ≤ G_MAXINT then t else undef d
  | none => undef d

/-! ## The channel value (`FlValue`) -/

/-- Modelled from the spec: the generic structured value of the channel codec, a tagged
variant (null, boolean, integer, float, string, ordered sequence, keyed record, binary);
its declaration (`FlValue` of flutter_linux) is not part of the repository. The typed
numeric lists of the library (`Uint8List`, `Int32List`, `Int64List`, `Float64List`) are
variants of their own, distinct from the generic list. A map keeps its entries in insertion
order. -/
inductive FlValue where
  | null
  | bool (b : Bool)
  | int (i : Int)
  | float (d : Double)
  | string (s : String)
  | uint8_list (l : List Nat)
  | int32_list (l : List Int)
  | int64_list (l : List Int)
  | float_list (l : List Double)
  | list (l : List FlValue)
  | map (entries : List (FlValue × FlValue))

/-- The type tag of a value (`FlValueType`). -/
inductive FlValueType where
  | FL_VALUE_TYPE_NULL
  | FL_VALUE_TYPE_BOOL
  | FL_VALUE_TYPE_INT
  | FL_VALUE_TYPE_FLOAT
  | FL_VALUE_TYPE_STRING
  | FL_VALUE_TYPE_UINT8_LIST
  | FL_VALUE_TYPE_INT32_LIST
  | FL_VALUE_TYPE_INT64_LIST
  | FL_VALUE_TYPE_FLOAT_LIST
  | FL_VALUE_TYPE_LIST
  | FL_VALUE_TYPE_MAP
  deriving DecidableEq, Repr

open FlValueType

/-- Library accessor `fl_value_get_type`. -/
def fl_value_get_type : FlValue → FlValueType
  | .null => FL_VALUE_TYPE_NULL
  | .bool _ => FL_VALUE_TYPE_BOOL
  | .int _ => FL_VALUE_TYPE_INT
  | .float _ => FL_VALUE_TYPE_FLOAT
  | .string _ => FL_VALUE_TYPE_STRING
  | .uint8_list _ => FL_VALUE_TYPE_UINT8_LIST
  | .int32_list _ => FL_VALUE_TYPE_INT32_LIST
  | .int64_list _ => FL_VALUE_TYPE_INT64_LIST
  | .float_list _ => FL_VALUE_TYPE_FLOAT_LIST
  | .list _ => FL_VALUE_TYPE_LIST
  | .map _ => FL_VALUE_TYPE_MAP

/-- Library accessor `fl_value_get_length`: the number of elements of a list, typed list or
map; `0` for a value that has no length. -/
def fl_value_get_length : FlValue → Nat
  | .uint8_list l => l.length
  | .int32_list l => l.length
  | .int64_list l => l.length
  | .float_list l => l.length
  | .list l => l.length
  | .map m => m.length
  | _ => 0

/-- Library accessor `fl_value_get_list_value`: the element at `index` of a generic list
(`none` is the null pointer). -/
def fl_value_get_list_value : FlValue → Nat → Option FlValue
  | .list l, index => l[index]?
  | _, _ => none

/-- Library accessor `fl_value_get_float`: the double held by a float value. Applied to a
null pointer or to a value of another type the library's precondition check fails and the
accessor returns `0.0`. -/
def fl_value_get_float : Option FlValue → Double
  | some (.float d) => d
  | _ => Double.zero

/-- Library constructor `fl_value_new_list`. -/
def fl_value_new_list : FlValue := .list []

/-- Library constructor `fl_value_new_map`. -/
def fl_value_new_map : FlValue := .map []

/-- Library constructor `fl_value_new_float`, applied by the plugin to `gint` arguments. -/
def fl_value_new_float (x : Int) : FlValue := .float (Double.ofGint x)

/-- Library operation `fl_value_append_take`: add an element at the end of a list. -/
def fl_value_append_take : FlValue → FlValue → FlValue
  | .list l, v => .list (l ++ [v])
  | other, _ => other

/-- Whether a map key is the string `key` (`fl_value_equal` against a string value). -/
def FlValue.isStringKey (key : String) : FlValue → Bool
  | .string s => s == key
  | _ => false

/-- Entries of a map after setting `key`: the entry whose key equals `key` is replaced in
place, and when there is none the new entry is added at the end. -/
def set_entry (key : String) (value : FlValue) :
    List (FlValue × FlValue) → List (FlValue × FlValue)
  | [] => [(.string key, value)]
  | (k, v) :: rest =>
      if k.isStringKey key then (.string key, value) :: rest
      else (k, v) :: set_entry key value rest

/-- Library operation `fl_value_set_string_take`: set the value of a string key in a map. -/
def fl_value_set_string_take : FlValue → String → FlValue → FlValue
  | .map m, key, value => .map (set_entry key value m)
  | other, _, _ => other

/-! ## Constants of the plugin -/

def kChannelName : String := "flutter/windowsize"
def kBadArgumentsError : String := "Bad Arguments"
def kNoScreenError : String := "No Screen"
def kSetWindowFrameMethod : String := "setWindowFrame"
def kFrameKey : String := "frame"
def kVisibleFrameKey : String := "visibleFrame"
def kScaleFactorKey : String := "scaleFactor"

/-! ## Encoders -/

/-- A `GdkRectangle`. -/
structure GdkRectangle where
  x : Int
  y : Int
  width : Int
  height : Int
  deriving DecidableEq, Repr

/-- What the plugin reads of a `GdkMonitor`: its geometry, its work area and its scale
factor. -/
structure GdkMonitor where
  geometry : GdkRectangle
  workarea : GdkRectangle
  scale_factor : Int
  deriving DecidableEq, Repr

/-- Toolkit query `gdk_monitor_get_geometry`. -/
def gdk_monitor_get_geometry (monitor : GdkMonitor) : GdkRectangle := monitor.geometry

/-- Toolkit query `gdk_monitor_get_workarea`. -/
def gdk_monitor_get_workarea (monitor : GdkMonitor) : GdkRectangle := monitor.workarea

/-- Toolkit query `gdk_monitor_get_scale_factor`. -/
def gdk_monitor_get_scale_factor (monitor : GdkMonitor) : Int := monitor.scale_factor

/-- Converts frame dimensions into the Flutter representation. -/
def make_frame_value (x y width height : Int) : FlValue :=
  let value := fl_value_new_list
  let value := fl_value_append_take value (fl_value_new_float x)
  let value := fl_value_append_take value (fl_value_new_float y)
  let value := fl_value_append_take value (fl_value_new_float width)
  let value := fl_value_append_take value (fl_value_new_float height)
  value

/-- Converts monitor information into the Flutter representation. -/
def make_monitor_value (monitor : GdkMonitor) : FlValue :=
  let value := fl_value_new_map
  let frame := gdk_monitor_get_geometry monitor
  let value := fl_value_set_string_take value kFrameKey
    (make_frame_value frame.x frame.y frame.width frame.height)
  let frame := gdk_monitor_get_workarea monitor
  let value := fl_value_set_string_take value kVisibleFrameKey
    (make_frame_value frame.x frame.y frame.width frame.height)
  let scale_factor := gdk_monitor_get_scale_factor monitor
  let value := fl_value_set_string_take value kScaleFactorKey (fl_value_new_float scale_factor)
  value

/-! ## The window and the plugin instance -/

/-- A request made to the toolkit on a window. -/
inductive GtkRequest where
  | move (x y : Int)
  | resize (width height : Int)
  deriving DecidableEq, Repr

/-- The controlled top-level window: its position, its size, and the move and resize
requests it has received, oldest first. The window honours each request exactly. -/
structure GtkWindow where
  x : Int
  y : Int
  width : Int
  height : Int
  requests : List GtkRequest
  deriving DecidableEq, Repr

/-- Toolkit call `gtk_window_move`. -/
def gtk_window_move (window : GtkWindow) (x y : Int) : GtkWindow :=
  { window with x := x, y := y, requests := window.requests ++ [.move x y] }

/-- Toolkit call `gtk_window_resize`. -/
def gtk_window_resize (window : GtkWindow) (width height : Int) : GtkWindow :=
  { window with width := width, height := height,
                requests := window.requests ++ [.resize width height] }

/-- Position of a window. -/
def GtkWindow.position (window : GtkWindow) : Int × Int := (window.x, window.y)

/-- Size of a window. -/
def GtkWindow.size (window : GtkWindow) : Int × Int := (window.width, window.height)

/-- The Flutter view widget; `toplevel` is what `gtk_widget_get_toplevel` returns for it. -/
structure FlView where
  toplevel : GtkWindow
  deriving DecidableEq, Repr

/-- The plugin registrar: it has a view or none. -/
structure FlPluginRegistrar where
  view : Option FlView
  deriving DecidableEq, Repr

/-- Library accessor `fl_plugin_registrar_get_view`; a null registrar has no view. -/
def fl_plugin_registrar_get_view : Option FlPluginRegistrar → Option FlView
  | some registrar => registrar.view
  | none => none

/-- The fields of `GdkGeometry` the plugin assigns. -/
structure GdkGeometry where
  min_width : Int
  min_height : Int
  max_width : Int
  max_height : Int
  deriving DecidableEq, Repr

/-- The method channel, identified by its name. -/
structure FlMethodChannel where
  name : String
  deriving DecidableEq, Repr

/-- The plugin instance (`struct _FlWebRendererPlugin`). -/
structure FlWebRendererPlugin where
  registrar : Option FlPluginRegistrar
  channel : Option FlMethodChannel
  window_geometry : GdkGeometry
  deriving DecidableEq, Repr

/-- Gets the window being controlled. -/
def get_window (self : FlWebRendererPlugin) : Option GtkWindow :=
  match fl_plugin_registrar_get_view self.registrar with
  | none => none
  | some view => some view.toplevel

/-- Writes back the window that the handler reached through `get_window` and mutated. -/
def FlWebRendererPlugin.storeWindow (self : FlWebRendererPlugin) (window : GtkWindow) :
    FlWebRendererPlugin :=
  match self.registrar with
  | some registrar =>
      match registrar.view with
      | some view =>
          { self with registrar := some { registrar with view := some { view with toplevel := window } } }
      | none => self
  | none => self

/-! ## Responses -/

/-- A method response: success with a result, an error with code, message and details, or
"not implemented". A null pointer argument is `none`. -/
inductive FlMethodResponse where
  | success (result : Option FlValue)
  | error (code : String) (message : Option String) (details : Option FlValue)
  | not_implemented

/-- Library constructor `fl_method_success_response_new`. -/
def fl_method_success_response_new (result : Option FlValue) : FlMethodResponse :=
  .success result

/-- Library constructor `fl_method_error_response_new`. -/
def fl_method_error_response_new (code : String) (message : Option String)
    (details : Option FlValue) : FlMethodResponse :=
  .error code message details

/-- Library constructor `fl_method_not_implemented_response_new`. -/
def fl_method_not_implemented_response_new : FlMethodResponse := .not_implemented

/-- Whether a response is a success response. -/
def FlMethodResponse.isSuccess : FlMethodResponse → Bool
  | .success _ => true
  | _ => false

/-! ## The handler and the dispatcher -/

/-- Sets the window position and dimensions. Returns the response and the instance with
the window as the toolkit calls left it. -/
def set_window_frame (undef : Double → Int) (self : FlWebRendererPlugin) (args : FlValue) :
    FlMethodResponse × FlWebRendererPlugin :=
  if fl_value_get_type args ≠ FL_VALUE_TYPE_LIST ∨ fl_value_get_length args ≠ 4 then
    (fl_method_error_response_new kBadArgumentsError (some "Expected 4-element list") none,
      self)
  else
    let x := fl_value_get_float (fl_value_get_list_value args 0)
    let y := fl_value_get_float (fl_value_get_list_value args 1)
    let width := fl_value_get_float (fl_value_get_list_value args 2)
    let height := fl_value_get_float (fl_value_get_list_value args 3)
    match get_window self with
    | none => (fl_method_error_response_new kNoScreenError none none, self)
    | some window =>
        let window := gtk_window_move window (static_cast_gint undef x) (static_cast_gint undef y)
        let window := gtk_window_resize window (static_cast_gint undef width)
          (static_cast_gint undef height)
        (fl_method_success_response_new none, self.storeWindow window)

/-- A method call received from Flutter: its name, its arguments, and the responses that
have been sent for it, oldest first. -/
structure FlMethodCall where
  name : String
  args : FlValue
  responses : List FlMethodResponse

/-- Library accessor `fl_method_call_get_name`. -/
def fl_method_call_get_name (method_call : FlMethodCall) : String := method_call.name

/-- Library accessor `fl_method_call_get_args`. -/
def fl_method_call_get_args (method_call : FlMethodCall) : FlValue := method_call.args

/-- Library call `fl_method_call_respond`: hands the response to the channel. Its Boolean
result only decides whether the dispatcher logs a warning, which is not part of the state. -/
def fl_method_call_respond (method_call : FlMethodCall) (response : FlMethodResponse) :
    FlMethodCall :=
  { method_call with responses := method_call.responses ++ [response] }

/-- C `strcmp` on two strings: zero exactly when they are equal, otherwise the sign of the
lexicographic comparison. -/
def strcmp (a b : String) : Int :=
  if a = b then 0 else if a < b then -1 else 1

/-- Called when a method call is received from Flutter. -/
def method_call_cb (undef : Double → Int) (self : FlWebRendererPlugin)
    (method_call : FlMethodCall) : FlWebRendererPlugin × FlMethodCall :=
  let method := fl_method_call_get_name method_call
  let args := fl_method_call_get_args method_call
  let (response, self) :=
    if strcmp method kSetWindowFrameMethod = 0 then
      set_window_frame undef self args
    else
      (fl_method_not_implemented_response_new, self)
  (self, fl_method_call_respond method_call response)

/-! ## Construction and runs -/

/-- A freshly allocated instance: GObject zero-fills it. -/
def g_object_new_zeroed : FlWebRendererPlugin :=
  { registrar := none, channel := none,
    window_geometry := { min_width := 0, min_height := 0, max_width := 0, max_height := 0 } }

/-- Instance initialiser. -/
def fl_web_renderer_plugin_init (self : FlWebRendererPlugin) : FlWebRendererPlugin :=
  { self with window_geometry :=
      { min_width := -1, min_height := -1, max_width := G_MAXINT, max_height := G_MAXINT } }

/-- Constructor of the plugin. -/
def fl_web_renderer_plugin_new (registrar : FlPluginRegistrar) : FlWebRendererPlugin :=
  let self := fl_web_renderer_plugin_init g_object_new_zeroed
  let self := { self with registrar := some registrar }
  let self := { self with channel := some { name := kChannelName } }
  self

/-- What can happen to a live instance: a method call arrives, or the host changes the view
of the registrar (a view appears, goes away, or its window changes). -/
inductive Event where
  | call (name : String) (args : FlValue)
  | view_changed (view : Option FlView)

/-- One event applied to the instance. -/
def step (undef : Double → Int) (self : FlWebRendererPlugin) : Event → FlWebRendererPlugin
  | .call name args =>
      (method_call_cb undef self { name := name, args := args, responses := [] }).1
  | .view_changed view =>
      match self.registrar with
      | some registrar => { self with registrar := some { registrar with view := view } }
      | none => self

/-- A sequence of events applied in order. -/
def run (undef : Double → Int) (self : FlWebRendererPlugin) (events : List Event) :
    FlWebRendererPlugin :=
  events.foldl (step undef) self

/-! ## Predicates used to state the properties -/

/-- A value that holds a number: an integer or a float. -/
def FlValue.isNumber : FlValue → Bool
  | .int _ => true
  | .float _ => true
  | _ => false

/-- A payload that is a generic list of exactly four numbers. -/
def FlValue.isNumericQuad : FlValue → Bool
  | .list [a, b, c, d] => a.isNumber && b.isNumber && c.isNumber && d.isNumber
  | _ => false

/-- The "Bad Arguments" response of the handler. -/
def badArguments : FlMethodResponse :=
  .error "Bad Arguments" (some "Expected 4-element list") none

/-- The "No Screen" response of the handler. -/
def noScreen : FlMethodResponse := .error "No Screen" none none

/-- A machine whose out-of-range casts give `G_MININT` (the x86 "integer indefinite"). -/
def undefMin : Double → Int := fun _ => G_MININT

/-- A window at (1, 2) of size 3 × 4 that has received no request. -/
def sampleWindow : GtkWindow := { x := 1, y := 2, width := 3, height := 4, requests := [] }

/-- An instance whose registrar has a view with `sampleWindow` as top-level window. -/
def pluginWithWindow : FlWebRendererPlugin :=
  fl_web_renderer_plugin_new { view := some { toplevel := sampleWindow } }

/-- An instance whose registrar has no view. -/
def pluginNoView : FlWebRendererPlugin := fl_web_renderer_plugin_new { view := none }

/-- A list of four strings. -/
def fourStrings : FlValue := .list [.string "a", .string "b", .string "c", .string "d"]

/-- A list of three floats. -/
def threeFloats : FlValue :=
  .list [.float (Double.ofGint 10), .float (Double.ofGint 20), .float (Double.ofGint 800)]

/-- A list of four integers: the frame (10, 20, 800, 600) sent as integer values. -/
def fourInts : FlValue := .list [.int 10, .int 20, .int 800, .int 600]

/-- The doubles 10.5, -20.5, 800.0 and 600.0 as a list of four floats. -/
def fourFloats : FlValue :=
  .list [.float (.finite 21 (-1)), .float (.finite (-41) (-1)), .float (.finite 100 3),
    .float (.finite 600 0)]

/-! ## Basic facts -/

theorem tdiv_two_pow_of_nonneg (m : Int) (n : Nat) (hm : 0 ≤ m) :
    Int.tdiv m (2 ^ n) = ⌊(m : ℚ) / (2 : ℚ) ^ n⌋ := by
  have h2 : (0 : Int) ≤ 2 ^ n := by positivity
  rw [Int.tdiv_eq_ediv hm h2]
  have hfloor := Rat.floor_intCast_div_natCast m (2 ^ n)
  push_cast at hfloor
  rw [hfloor]

theorem tdiv_two_pow_of_nonpos (m : Int) (n : Nat) (hm : m ≤ 0) :
    Int.tdiv m (2 ^ n) = ⌈(m : ℚ) / (2 : ℚ) ^ n⌉ := by
  have h := tdiv_two_pow_of_nonneg (-m) n (by omega)
  rw [Int.neg_tdiv] at h
  have hc : ⌈(m : ℚ) / (2 : ℚ) ^ n⌉ = -⌊((-m : Int) : ℚ) / (2 : ℚ) ^ n⌋ := by
    rw [← Int.ceil_neg]
    congr 1
    push_cast
    ring
  rw [hc, ← h]
  ring

/-- Truncation rounds toward zero: it is the floor of a non-negative double and the ceiling
of a non-positive one. -/
theorem Double.trunc_toward_zero (d : Double) (t : Int) (h : d.trunc = some t) :
    ∃ q : ℚ, d.toRat? = some q ∧ (0 ≤ q → t = ⌊q⌋) ∧ (q ≤ 0 → t = ⌈q⌉) := by
  cases d with
  | inf negative => simp [Double.trunc] at h
  | nan => simp [Double.trunc] at h
  | finite m e =>
    simp only [Double.trunc, Option.some.injEq] at h
    refine ⟨(m : ℚ) * (2 : ℚ) ^ e, rfl, ?_⟩
    by_cases he : 0 ≤ e
    · rw [if_pos he] at h
      have hq : (m : ℚ) * (2 : ℚ) ^ e = ((t : Int) : ℚ) := by
        rw [← h]
        push_cast
        congr 1
        conv_lhs => rw [← Int.toNat_of_nonneg he]
        exact zpow_natCast 2 e.toNat
      rw [hq]
      exact ⟨fun _ => (Int.floor_intCast t).symm, fun _ => (Int.ceil_intCast t).symm⟩
    · rw [if_neg he] at h
      have hpos : (0 : ℚ) < (2 : ℚ) ^ (-e).toNat := by positivity
      have hq : (m : ℚ) * (2 : ℚ) ^ e = (m : ℚ) / (2 : ℚ) ^ (-e).toNat := by
        have hn : e = -(((-e).toNat : Nat) : Int) := by omega
        conv_lhs => rw [hn]
        rw [zpow_neg, zpow_natCast, div_eq_mul_inv]
      rw [hq]
      constructor
      · intro h0
        have hm : 0 ≤ m := by
          by_contra hneg
          have hlt : (m : ℚ) < 0 := by exact_mod_cast (not_le.mp hneg)
          exact absurd (div_neg_of_neg_of_pos hlt hpos) (not_lt.mpr h0)
        rw [← h]
        exact tdiv_two_pow_of_nonneg m _ hm
      · intro h0
        have hm : m ≤ 0 := by
          by_contra hneg
          have hlt : (0 : ℚ) < (m : ℚ) := by exact_mod_cast (not_le.mp hneg)
          exact absurd (div_pos hlt hpos) (not_lt.mpr h0)
        rw [← h]
        exact tdiv_two_pow_of_nonpos m _ hm

/-- The cast of a double whose truncation is a `gint` is that truncation. -/
theorem static_cast_gint_of_trunc (undef : Double → Int) (d : Double) (t : Int)
    (h : d.trunc = some t) (hr : G_MININT ≤ t ∧ t ≤ G_MAXINT) :
    static_cast_gint undef d = t := by
  simp only [static_cast_gint, h, hr, and_self, if_true]

/-- A `gint` converted to double and cast back is unchanged. -/
theorem static_cast_gint_ofGint (undef : Double → Int) (x : Int)
    (hr : G_MININT ≤ x ∧ x ≤ G_MAXINT) :
    static_cast_gint undef (Double.ofGint x) = x := by
  apply static_cast_gint_of_trunc undef _ x _ hr
  simp [Double.ofGint, Double.trunc]

/-- The number a converted `gint` stands for is that integer. -/
theorem toRat_ofGint (x : Int) : (Double.ofGint x).toRat? = some (x : ℚ) := by
  simp [Double.ofGint, Double.toRat?]

theorem strcmp_eq_zero_iff (a b : String) : strcmp a b = 0 ↔ a = b := by
  unfold strcmp
  by_cases h : a = b
  · simp [h]
  · simp only [h, if_false, iff_false]
    split <;> decide

theorem get_window_storeWindow (self : FlWebRendererPlugin) (w w' : GtkWindow)
    (h : get_window self = some w) : get_window (self.storeWindow w') = some w' := by
  obtain ⟨registrar, channel, geometry⟩ := self
  cases registrar with
  | none => simp [get_window, fl_plugin_registrar_get_view] at h
  | some registrar =>
    obtain ⟨view⟩ := registrar
    cases view with
    | none => simp [get_window, fl_plugin_registrar_get_view] at h
    | some view =>
      simp [get_window, fl_plugin_registrar_get_view, FlWebRendererPlugin.storeWindow]

theorem storeWindow_window_geometry (self : FlWebRendererPlugin) (w : GtkWindow) :
    (self.storeWindow w).window_geometry = self.window_geometry := by
  obtain ⟨registrar, channel, geometry⟩ := self
  cases registrar with
  | none => rfl
  | some registrar =>
    obtain ⟨view⟩ := registrar
    cases view <;> rfl

/-- The shape test of the handler fails exactly on the generic lists of length four. -/
theorem shape_test_iff (args : FlValue) :
    (fl_value_get_type args ≠ FL_VALUE_TYPE_LIST ∨ fl_value_get_length args ≠ 4) ↔
      ¬ ∃ l, args = .list l ∧ l.length = 4 := by
  cases args <;> simp [fl_value_get_type, fl_value_get_length]

/-- The handler on a payload that fails the shape test. -/
theorem set_window_frame_bad_shape (undef : Double → Int) (self : FlWebRendererPlugin)
    (args : FlValue) (h : ¬ ∃ l, args = .list l ∧ l.length = 4) :
    set_window_frame undef self args = (badArguments, self) := by
  have h' := (shape_test_iff args).mpr h
  simp only [set_window_frame, h', if_true]
  rfl

/-- The handler on a four-element list when no window is resolvable. -/
theorem set_window_frame_no_window (undef : Double → Int) (self : FlWebRendererPlugin)
    (l : List FlValue) (h4 : l.length = 4) (hw : get_window self = none) :
    set_window_frame undef self (.list l) = (noScreen, self) := by
  have h' : ¬ (fl_value_get_type (.list l) ≠ FL_VALUE_TYPE_LIST ∨
      fl_value_get_length (.list l) ≠ 4) := by
    simp [fl_value_get_type, fl_value_get_length, h4]
  simp only [set_window_frame, h', if_false, hw]
  rfl

/-- The handler on a four-element list when a window is resolvable. -/
theorem set_window_frame_window (undef : Double → Int) (self : FlWebRendererPlugin)
    (l : List FlValue) (h4 : l.length = 4) (w : GtkWindow) (hw : get_window self = some w) :
    set_window_frame undef self (.list l) =
      (.success none,
        self.storeWindow
          (gtk_window_resize
            (gtk_window_move w (static_cast_gint undef (fl_value_get_float l[0]?))
              (static_cast_gint undef (fl_value_get_float l[1]?)))
            (static_cast_gint undef (fl_value_get_float l[2]?))
            (static_cast_gint undef (fl_value_get_float l[3]?)))) := by
  have h' : ¬ (fl_value_get_type (.list l) ≠ FL_VALUE_TYPE_LIST ∨
      fl_value_get_length (.list l) ≠ 4) := by
    simp [fl_value_get_type, fl_value_get_length, h4]
  simp only [set_window_frame, h', if_false, hw]
  rfl

/-- The handler has three responses. -/
theorem set_window_frame_response (undef : Double → Int) (self : FlWebRendererPlugin)
    (args : FlValue) :
    (set_window_frame undef self args).1 = badArguments ∨
      (set_window_frame undef self args).1 = noScreen ∨
      (set_window_frame undef self args).1 = .success none := by
  by_cases h : ∃ l, args = .list l ∧ l.length = 4
  · obtain ⟨l, rfl, h4⟩ := h
    cases hw : get_window self with
    | none => rw [set_window_frame_no_window undef self l h4 hw]; simp
    | some w => rw [set_window_frame_window undef self l h4 w hw]; simp
  · rw [set_window_frame_bad_shape undef self args h]; simp

/-- The dispatcher on the recognised name: the handler's instance and the handler's
response appended to the responses of the call. -/
theorem method_call_cb_recognised (undef : Double → Int) (self : FlWebRendererPlugin)
    (name : String) (args : FlValue) (responses : List FlMethodResponse)
    (h : name = "setWindowFrame") :
    method_call_cb undef self { name := name, args := args, responses := responses } =
      ((set_window_frame undef self args).2,
        { name := name, args := args,
          responses := responses ++ [(set_window_frame undef self args).1] }) := by
  have hs : strcmp name kSetWindowFrameMethod = 0 := by
    rw [strcmp_eq_zero_iff]; exact h
  simp only [method_call_cb, fl_method_call_get_name, fl_method_call_get_args, hs, if_true]
  rfl

/-- The handler never touches the geometry hint. -/
theorem set_window_frame_window_geometry (undef : Double → Int) (self : FlWebRendererPlugin)
    (args : FlValue) :
    (set_window_frame undef self args).2.window_geometry = self.window_geometry := by
  by_cases h : ∃ l, args = .list l ∧ l.length = 4
  · obtain ⟨l, rfl, h4⟩ := h
    cases hw : get_window self with
    | none => rw [set_window_frame_no_window undef self l h4 hw]
    | some w =>
      rw [set_window_frame_window undef self l h4 w hw]
      exact storeWindow_window_geometry _ _
  · rw [set_window_frame_bad_shape undef self args h]

/-- The dispatcher never touches the geometry hint. -/
theorem method_call_cb_window_geometry (undef : Double → Int) (self : FlWebRendererPlugin)
    (method_call : FlMethodCall) :
    (method_call_cb undef self method_call).1.window_geometry = self.window_geometry := by
  by_cases hs : strcmp (fl_method_call_get_name method_call) kSetWindowFrameMethod = 0
  · have hcb : (method_call_cb undef self method_call).1 =
        (set_window_frame undef self (fl_method_call_get_args method_call)).2 := by
      simp only [method_call_cb, hs, if_true]
    rw [hcb]
    exact set_window_frame_window_geometry _ _ _
  · have hcb : (method_call_cb undef self method_call).1 = self := by
      simp only [method_call_cb, hs, if_false]
    rw [hcb]

/-- One event leaves the geometry hint as it was. -/
theorem step_window_geometry (undef : Double → Int) (self : FlWebRendererPlugin)
    (event : Event) : (step undef self event).window_geometry = self.window_geometry := by
  cases event with
  | call name args => exact method_call_cb_window_geometry _ _ _
  | view_changed view =>
    obtain ⟨registrar, channel, geometry⟩ := self
    cases registrar <;> rfl

/-- A run of events leaves the geometry hint as it was. -/
theorem run_window_geometry (undef : Double → Int) (events : List Event) :
    ∀ self : FlWebRendererPlugin,
      (run undef self events).window_geometry = self.window_geometry := by
  induction events with
  | nil => intro self; rfl
  | cons event rest ih =>
    intro self
    have hrun : run undef self (event :: rest) = run undef (step undef self event) rest := rfl
    rw [hrun, ih, step_window_geometry]

/-! ## The dispatcher -/

/-- C1: for every method name other than exactly "setWindowFrame", whatever the payload and
the window state, the dispatcher sends the "not implemented" response (and only that one) and
leaves the instance, hence the window with its position, size and request log, as it was. -/
theorem method_call_cb_other_method (undef : Double → Int) (self : FlWebRendererPlugin)
    (method_call : FlMethodCall) (h : method_call.name ≠ "setWindowFrame") :
    (method_call_cb undef self method_call).2.responses =
        method_call.responses ++ [FlMethodResponse.not_implemented] ∧
      (method_call_cb undef self method_call).1 = self ∧
      get_window (method_call_cb undef self method_call).1 = get_window self := by
  have hs : ¬ strcmp (fl_method_call_get_name method_call) kSetWindowFrameMethod = 0 := by
    rw [strcmp_eq_zero_iff]; exact h
  have hcb : method_call_cb undef self method_call =
      (self, fl_method_call_respond method_call fl_method_not_implemented_response_new) := by
    simp only [method_call_cb, hs, if_false]
  rw [hcb]
  exact ⟨rfl, rfl, rfl⟩

/-- Witness for C1: a name that differs from "setWindowFrame" only in case, sent with a
well-formed frame payload to an instance that has a window. -/
theorem method_call_cb_other_method_witness :
    ("setwindowframe" ≠ "setWindowFrame") ∧
      (method_call_cb undefMin pluginWithWindow
          { name := "setwindowframe", args := make_frame_value 10 20 800 600,
            responses := [] }).2.responses = [] ++ [FlMethodResponse.not_implemented] ∧
      (method_call_cb undefMin pluginWithWindow
          { name := "setwindowframe", args := make_frame_value 10 20 800 600,
            responses := [] }).1 = pluginWithWindow ∧
      get_window (method_call_cb undefMin pluginWithWindow
          { name := "setwindowframe", args := make_frame_value 10 20 800 600,
            responses := [] }).1 = get_window pluginWithWindow :=
  ⟨by decide,
    method_call_cb_other_method undefMin pluginWithWindow
      { name := "setwindowframe", args := make_frame_value 10 20 800 600, responses := [] }
      (by decide)⟩

/-- C8: for every call named exactly "setWindowFrame", with any payload, the dispatcher runs
the handler once on that payload (the instance it leaves is the one the handler returns) and
sends exactly one response, the handler's own: success, "Bad Arguments" or "No Screen", never
"not implemented". -/
theorem method_call_cb_set_window_frame (undef : Double → Int) (self : FlWebRendererPlugin)
    (method_call : FlMethodCall) (h : method_call.name = "setWindowFrame") :
    (method_call_cb undef self method_call).1 =
        (set_window_frame undef self method_call.args).2 ∧
      (method_call_cb undef self method_call).2.responses =
        method_call.responses ++ [(set_window_frame undef self method_call.args).1] ∧
      (set_window_frame undef self method_call.args).1 ≠ FlMethodResponse.not_implemented ∧
      ((set_window_frame undef self method_call.args).1 = .success none ∨
        (set_window_frame undef self method_call.args).1 = badArguments ∨
        (set_window_frame undef self method_call.args).1 = noScreen) := by
  have hs : strcmp (fl_method_call_get_name method_call) kSetWindowFrameMethod = 0 := by
    rw [strcmp_eq_zero_iff]; exact h
  refine ⟨?_, ?_, ?_, ?_⟩
  · simp only [method_call_cb, hs, if_true]; rfl
  · simp only [method_call_cb, hs, if_true]; rfl
  · rcases set_window_frame_response undef self method_call.args with h | h | h <;>
      rw [h] <;> simp [badArguments, noScreen]
  · rcases set_window_frame_response undef self method_call.args with h | h | h <;>
      simp [h]

/-- Witness for C8: a fresh "setWindowFrame" call carrying the frame (10, 20, 800, 600). -/
theorem method_call_cb_set_window_frame_witness :
    ("setWindowFrame" = "setWindowFrame") ∧
      (method_call_cb undefMin pluginWithWindow
          { name := "setWindowFrame", args := make_frame_value 10 20 800 600,
            responses := [] }).2.responses =
        [] ++ [(set_window_frame undefMin pluginWithWindow
                  (make_frame_value 10 20 800 600)).1] :=
  ⟨rfl,
    (method_call_cb_set_window_frame undefMin pluginWithWindow
      { name := "setWindowFrame", args := make_frame_value 10 20 800 600, responses := [] }
      rfl).2.1⟩

/-! ## The handler -/

/-- C2 fails as stated on a list of four elements that are not numbers: the handler does not
look at the elements. With no view the response is "No Screen", not "Bad Arguments"; with a
window the response is success and the window receives a move and a resize. -/
theorem set_window_frame_four_strings_not_rejected :
    FlValue.isNumericQuad fourStrings = false ∧
      (set_window_frame undefMin pluginNoView fourStrings).1 =
        FlMethodResponse.error "No Screen" none none ∧
      (set_window_frame undefMin pluginNoView fourStrings).1 ≠
        FlMethodResponse.error "Bad Arguments" (some "Expected 4-element list") none ∧
      (set_window_frame undefMin pluginWithWindow fourStrings).1 = FlMethodResponse.success none ∧
      (get_window (set_window_frame undefMin pluginWithWindow fourStrings).2).map
          (fun w => w.requests.length) = some 2 ∧
      (get_window pluginWithWindow).map (fun w => w.requests.length) = some 0 := by
  refine ⟨rfl, rfl, ?_, rfl, rfl, rfl⟩
  have h : (set_window_frame undefMin pluginNoView fourStrings).1 =
      FlMethodResponse.error "No Screen" none none := rfl
  rw [h]
  simp

/-- C2, amended: every payload that is not a generic list of length 4 (not a list at all, a
typed list, or a list of another length) yields the error "Bad Arguments" with the message
"Expected 4-element list" and no details, and the instance, hence the window, is left as it
was, whether or not a window is resolvable. -/
theorem set_window_frame_bad_arguments (undef : Double → Int) (self : FlWebRendererPlugin)
    (args : FlValue) (h : ∀ l, args = .list l → l.length ≠ 4) :
    (set_window_frame undef self args).1 =
        FlMethodResponse.error "Bad Arguments" (some "Expected 4-element list") none ∧
      (set_window_frame undef self args).2 = self ∧
      get_window (set_window_frame undef self args).2 = get_window self := by
  have h' : ¬ ∃ l, args = .list l ∧ l.length = 4 := by
    rintro ⟨l, hl, h4⟩
    exact h l hl h4
  rw [set_window_frame_bad_shape undef self args h']
  exact ⟨rfl, rfl, rfl⟩

/-- Witness for the amended C2: a list of three floats, sent to an instance with a window. -/
theorem set_window_frame_bad_arguments_witness :
    (∀ l, threeFloats = FlValue.list l → l.length ≠ 4) ∧
      (set_window_frame undefMin pluginWithWindow threeFloats).1 =
        FlMethodResponse.error "Bad Arguments" (some "Expected 4-element list") none ∧
      (set_window_frame undefMin pluginWithWindow threeFloats).2 = pluginWithWindow ∧
      get_window (set_window_frame undefMin pluginWithWindow threeFloats).2 =
        get_window pluginWithWindow :=
  have h : ∀ l, threeFloats = FlValue.list l → l.length ≠ 4 := by
    intro l hl
    injection hl with hl
    subst hl
    decide
  ⟨h, set_window_frame_bad_arguments undefMin pluginWithWindow threeFloats h⟩

/-- C3: for a "setWindowFrame" payload that is a list of four elements (in particular four
numbers), when the registrar has no view `get_window` returns null and the handler returns the
error "No Screen" with null message and null details; the instance is left as it was, so no
move and no resize is made. -/
theorem set_window_frame_no_screen (undef : Double → Int) (self : FlWebRendererPlugin)
    (l : List FlValue) (h4 : l.length = 4)
    (hv : fl_plugin_registrar_get_view self.registrar = none) :
    get_window self = none ∧
      (set_window_frame undef self (.list l)).1 = FlMethodResponse.error "No Screen" none none ∧
      (set_window_frame undef self (.list l)).2 = self := by
  have hw : get_window self = none := by
    simp only [get_window, hv]
  rw [set_window_frame_no_window undef self l h4 hw]
  exact ⟨hw, rfl, rfl⟩

/-- Witness for C3: the frame (10, 20, 800, 600) sent to an instance without a view. -/
theorem set_window_frame_no_screen_witness :
    [FlValue.float (Double.ofGint 10), FlValue.float (Double.ofGint 20),
        FlValue.float (Double.ofGint 800), FlValue.float (Double.ofGint 600)].length = 4 ∧
      fl_plugin_registrar_get_view pluginNoView.registrar = none ∧
      get_window pluginNoView = none ∧
      (set_window_frame undefMin pluginNoView
          (.list [FlValue.float (Double.ofGint 10), FlValue.float (Double.ofGint 20),
            FlValue.float (Double.ofGint 800), FlValue.float (Double.ofGint 600)])).1 =
        FlMethodResponse.error "No Screen" none none ∧
      (set_window_frame undefMin pluginNoView
          (.list [FlValue.float (Double.ofGint 10), FlValue.float (Double.ofGint 20),
            FlValue.float (Double.ofGint 800), FlValue.float (Double.ofGint 600)])).2 =
        pluginNoView :=
  ⟨rfl, rfl, set_window_frame_no_screen undefMin pluginNoView _ rfl rfl⟩

/-! ## The geometry hint -/

/-- C9: the geometry hint of a constructed instance is (-1, -1, G_MAXINT, G_MAXINT), and it
still is after any sequence of method calls (any name, any payload) interleaved with any
changes of the registrar's view. -/
theorem window_geometry_invariant (undef : Double → Int) (registrar : FlPluginRegistrar)
    (events : List Event) :
    (fl_web_renderer_plugin_new registrar).window_geometry =
        { min_width := -1, min_height := -1, max_width := 2147483647,
          max_height := 2147483647 } ∧
      (run undef (fl_web_renderer_plugin_new registrar) events).window_geometry =
        { min_width := -1, min_height := -1, max_width := 2147483647,
          max_height := 2147483647 } := by
  refine ⟨rfl, ?_⟩
  rw [run_window_geometry]
  rfl

/-! ## The effect of the handler -/

/-- C4 fails as stated on four numbers sent as integer values: the handler reads every element
with the float accessor, which yields 0.0 for an integer, so the frame (10, 20, 800, 600) sent
as integers moves the window to (0, 0) and resizes it to (0, 0). -/
theorem set_window_frame_four_ints_zeroed :
    FlValue.isNumericQuad fourInts = true ∧
      (set_window_frame undefMin pluginWithWindow fourInts).1 = FlMethodResponse.success none ∧
      get_window (set_window_frame undefMin pluginWithWindow fourInts).2 =
        some { x := 0, y := 0, width := 0, height := 0,
               requests := [GtkRequest.move 0 0, GtkRequest.resize 0 0] } ∧
      (get_window (set_window_frame undefMin pluginWithWindow fourInts).2).map
          GtkWindow.position ≠ some (10, 20) ∧
      (get_window (set_window_frame undefMin pluginWithWindow fourInts).2).map
          GtkWindow.size ≠ some (800, 600) := by
  refine ⟨rfl, rfl, rfl, ?_, ?_⟩ <;> decide

/-- C4, amended: for a payload that is a generic list of exactly four float values
(x, y, width, height) whose truncations tx, ty, tw, th are 32-bit signed integers, and a
resolvable window, the handler makes exactly a move to (tx, ty) followed by a resize to
(tw, th), so that the window's position becomes (tx, ty) and its size (tw, th), and returns
success with a null result. Each truncation is the double rounded toward zero: the floor of
a non-negative value, the ceiling of a non-positive one. -/
theorem set_window_frame_applies (undef : Double → Int) (self : FlWebRendererPlugin)
    (w : GtkWindow) (dx dy dw dh : Double) (tx ty tw th : Int)
    (hw : get_window self = some w)
    (hx : dx.trunc = some tx) (hxr : G_MININT ≤ tx ∧ tx ≤ G_MAXINT)
    (hy : dy.trunc = some ty) (hyr : G_MININT ≤ ty ∧ ty ≤ G_MAXINT)
    (hwd : dw.trunc = some tw) (hwr : G_MININT ≤ tw ∧ tw ≤ G_MAXINT)
    (hh : dh.trunc = some th) (hhr : G_MININT ≤ th ∧ th ≤ G_MAXINT) :
    (set_window_frame undef self (.list [.float dx, .float dy, .float dw, .float dh])).1 =
        FlMethodResponse.success none ∧
      (set_window_frame undef self (.list [.float dx, .float dy, .float dw, .float dh])).2 =
        self.storeWindow (gtk_window_resize (gtk_window_move w tx ty) tw th) ∧
      get_window
          (set_window_frame undef self (.list [.float dx, .float dy, .float dw, .float dh])).2 =
        some { x := tx, y := ty, width := tw, height := th,
               requests := w.requests ++ [GtkRequest.move tx ty, GtkRequest.resize tw th] } ∧
      (∃ q : ℚ, dx.toRat? = some q ∧ (0 ≤ q → tx = ⌊q⌋) ∧ (q ≤ 0 → tx = ⌈q⌉)) ∧
      (∃ q : ℚ, dy.toRat? = some q ∧ (0 ≤ q → ty = ⌊q⌋) ∧ (q ≤ 0 → ty = ⌈q⌉)) ∧
      (∃ q : ℚ, dw.toRat? = some q ∧ (0 ≤ q → tw = ⌊q⌋) ∧ (q ≤ 0 → tw = ⌈q⌉)) ∧
      (∃ q : ℚ, dh.toRat? = some q ∧ (0 ≤ q → th = ⌊q⌋) ∧ (q ≤ 0 → th = ⌈q⌉)) := by
  have hswf := set_window_frame_window undef self
    [.float dx, .float dy, .float dw, .float dh] rfl w hw
  have ex : static_cast_gint undef
      (fl_value_get_float [FlValue.float dx, .float dy, .float dw, .float dh][0]?) = tx :=
    static_cast_gint_of_trunc undef dx tx hx hxr
  have ey : static_cast_gint undef
      (fl_value_get_float [FlValue.float dx, .float dy, .float dw, .float dh][1]?) = ty :=
    static_cast_gint_of_trunc undef dy ty hy hyr
  have ew : static_cast_gint undef
      (fl_value_get_float [FlValue.float dx, .float dy, .float dw, .float dh][2]?) = tw :=
    static_cast_gint_of_trunc undef dw tw hwd hwr
  have eh : static_cast_gint undef
      (fl_value_get_float [FlValue.float dx, .float dy, .float dw, .float dh][3]?) = th :=
    static_cast_gint_of_trunc undef dh th hh hhr
  rw [ex, ey, ew, eh] at hswf
  rw [hswf]
  refine ⟨rfl, rfl, ?_, Double.trunc_toward_zero dx tx hx, Double.trunc_toward_zero dy ty hy,
    Double.trunc_toward_zero dw tw hwd, Double.trunc_toward_zero dh th hh⟩
  rw [get_window_storeWindow self w _ hw]
  simp [gtk_window_resize, gtk_window_move]

/-- Witness for the amended C4: the doubles (10.5, -20.5, 800.0, 600.0) give a move to
(10, -20) and a resize to (800, 600) of the sample window. -/
theorem set_window_frame_applies_witness :
    get_window pluginWithWindow = some sampleWindow ∧
      ((Double.finite 21 (-1)).trunc = some 10 ∧ G_MININT ≤ (10 : Int) ∧ (10 : Int) ≤ G_MAXINT) ∧
      ((Double.finite (-41) (-1)).trunc = some (-20) ∧ G_MININT ≤ (-20 : Int) ∧
        (-20 : Int) ≤ G_MAXINT) ∧
      ((Double.finite 100 3).trunc = some 800 ∧ G_MININT ≤ (800 : Int) ∧
        (800 : Int) ≤ G_MAXINT) ∧
      ((Double.finite 600 0).trunc = some 600 ∧ G_MININT ≤ (600 : Int) ∧
        (600 : Int) ≤ G_MAXINT) ∧
      (set_window_frame undefMin pluginWithWindow fourFloats).1 = FlMethodResponse.success none ∧
      get_window (set_window_frame undefMin pluginWithWindow fourFloats).2 =
        some { x := 10, y := -20, width := 800, height := 600,
               requests := sampleWindow.requests ++
                 [GtkRequest.move 10 (-20), GtkRequest.resize 800 600] } :=
  have h := set_window_frame_applies undefMin pluginWithWindow sampleWindow
    (.finite 21 (-1)) (.finite (-41) (-1)) (.finite 100 3) (.finite 600 0) 10 (-20) 800 600
    rfl rfl (by decide) rfl (by decide) rfl (by decide) rfl (by decide)
  ⟨rfl, ⟨rfl, by decide⟩, ⟨rfl, by decide⟩, ⟨rfl, by decide⟩, ⟨rfl, by decide⟩, h.1, h.2.2.1⟩

/-! ## The encoders -/

/-- C5: for all `gint` values x, y, width, height the frame value is a generic list of exactly
four floats which are, in this order, x, y, width and height converted to double; each stands
for exactly that integer, and casting the elements back recovers the four integers. In
particular the frame (10, 20, 800, 600) is encoded as [10.0, 20.0, 800.0, 600.0]. -/
theorem make_frame_value_encoding (undef : Double → Int) (x y width height : Int)
    (hx : G_MININT ≤ x ∧ x ≤ G_MAXINT) (hy : G_MININT ≤ y ∧ y ≤ G_MAXINT)
    (hw : G_MININT ≤ width ∧ width ≤ G_MAXINT) (hh : G_MININT ≤ height ∧ height ≤ G_MAXINT) :
    make_frame_value x y width height =
        .list [.float (Double.ofGint x), .float (Double.ofGint y),
          .float (Double.ofGint width), .float (Double.ofGint height)] ∧
      fl_value_get_type (make_frame_value x y width height) = FL_VALUE_TYPE_LIST ∧
      fl_value_get_length (make_frame_value x y width height) = 4 ∧
      ((Double.ofGint x).toRat? = some (x : ℚ) ∧ (Double.ofGint y).toRat? = some (y : ℚ) ∧
        (Double.ofGint width).toRat? = some (width : ℚ) ∧
        (Double.ofGint height).toRat? = some (height : ℚ)) ∧
      (static_cast_gint undef
            (fl_value_get_float (fl_value_get_list_value (make_frame_value x y width height) 0))
          = x ∧
        static_cast_gint undef
            (fl_value_get_float (fl_value_get_list_value (make_frame_value x y width height) 1))
          = y ∧
        static_cast_gint undef
            (fl_value_get_float (fl_value_get_list_value (make_frame_value x y width height) 2))
          = width ∧
        static_cast_gint undef
            (fl_value_get_float (fl_value_get_list_value (make_frame_value x y width height) 3))
          = height) ∧
      make_frame_value 10 20 800 600 =
        .list [.float (.finite 10 0), .float (.finite 20 0), .float (.finite 800 0),
          .float (.finite 600 0)] :=
  ⟨rfl, rfl, rfl, ⟨toRat_ofGint x, toRat_ofGint y, toRat_ofGint width, toRat_ofGint height⟩,
    ⟨static_cast_gint_ofGint undef x hx, static_cast_gint_ofGint undef y hy,
      static_cast_gint_ofGint undef width hw, static_cast_gint_ofGint undef height hh⟩, rfl⟩

/-- Witness for C5: the frame (-5, 0, 1920, 1080). -/
theorem make_frame_value_encoding_witness :
    (G_MININT ≤ (-5 : Int) ∧ (-5 : Int) ≤ G_MAXINT) ∧
      (G_MININT ≤ (0 : Int) ∧ (0 : Int) ≤ G_MAXINT) ∧
      (G_MININT ≤ (1920 : Int) ∧ (1920 : Int) ≤ G_MAXINT) ∧
      (G_MININT ≤ (1080 : Int) ∧ (1080 : Int) ≤ G_MAXINT) ∧
      make_frame_value (-5) 0 1920 1080 =
        .list [.float (Double.ofGint (-5)), .float (Double.ofGint 0),
          .float (Double.ofGint 1920), .float (Double.ofGint 1080)] ∧
      fl_value_get_length (make_frame_value (-5) 0 1920 1080) = 4 ∧
      static_cast_gint undefMin
          (fl_value_get_float (fl_value_get_list_value (make_frame_value (-5) 0 1920 1080) 0))
        = -5 :=
  have h := make_frame_value_encoding undefMin (-5) 0 1920 1080
    (by decide) (by decide) (by decide) (by decide)
  ⟨by decide, by decide, by decide, by decide, h.1, h.2.2.1, h.2.2.2.2.1.1⟩

/-- C6: for every monitor with geometry g, work area w and scale factor s, the monitor value is
a map with exactly the three keys "frame", "visibleFrame" and "scaleFactor", in this order,
mapped to the frame value of g, the frame value of w, and s as a float; nothing else of the
monitor enters the result. -/
theorem make_monitor_value_encoding (g w : GdkRectangle) (s : Int) :
    make_monitor_value { geometry := g, workarea := w, scale_factor := s } =
        .map [(.string "frame", make_frame_value g.x g.y g.width g.height),
          (.string "visibleFrame", make_frame_value w.x w.y w.width w.height),
          (.string "scaleFactor", .float (Double.ofGint s))] ∧
      fl_value_get_type
          (make_monitor_value { geometry := g, workarea := w, scale_factor := s }) =
        FL_VALUE_TYPE_MAP ∧
      fl_value_get_length
          (make_monitor_value { geometry := g, workarea := w, scale_factor := s }) = 3 ∧
      (∀ monitor : GdkMonitor,
        gdk_monitor_get_geometry monitor = g → gdk_monitor_get_workarea monitor = w →
          gdk_monitor_get_scale_factor monitor = s →
          make_monitor_value monitor =
            make_monitor_value { geometry := g, workarea := w, scale_factor := s }) := by
  have hval : make_monitor_value { geometry := g, workarea := w, scale_factor := s } =
      .map [(.string "frame", make_frame_value g.x g.y g.width g.height),
        (.string "visibleFrame", make_frame_value w.x w.y w.width w.height),
        (.string "scaleFactor", .float (Double.ofGint s))] := by
    simp [make_monitor_value, fl_value_new_map, fl_value_set_string_take, set_entry,
      FlValue.isStringKey, kFrameKey, kVisibleFrameKey, kScaleFactorKey,
      gdk_monitor_get_geometry, gdk_monitor_get_workarea, gdk_monitor_get_scale_factor,
      fl_value_new_float]
  refine ⟨hval, ?_, ?_, ?_⟩
  · rw [hval]; rfl
  · rw [hval]; rfl
  · rintro ⟨g', w', s'⟩ hg hw' hs
    simp only [gdk_monitor_get_geometry, gdk_monitor_get_workarea,
      gdk_monitor_get_scale_factor] at hg hw' hs
    subst hg hw' hs
    rfl

/-! ## Outcomes and idempotence -/

/-- The window after a successful call: it has the requested position and size and two more
requests than before. -/
theorem set_window_frame_window_after (undef : Double → Int) (self : FlWebRendererPlugin)
    (l : List FlValue) (h4 : l.length = 4) (w : GtkWindow) (hw : get_window self = some w) :
    get_window (set_window_frame undef self (.list l)).2 =
      some { x := static_cast_gint undef (fl_value_get_float l[0]?),
             y := static_cast_gint undef (fl_value_get_float l[1]?),
             width := static_cast_gint undef (fl_value_get_float l[2]?),
             height := static_cast_gint undef (fl_value_get_float l[3]?),
             requests := w.requests ++
               [GtkRequest.move (static_cast_gint undef (fl_value_get_float l[0]?))
                  (static_cast_gint undef (fl_value_get_float l[1]?)),
                GtkRequest.resize (static_cast_gint undef (fl_value_get_float l[2]?))
                  (static_cast_gint undef (fl_value_get_float l[3]?))] } := by
  rw [set_window_frame_window undef self l h4 w hw]
  rw [get_window_storeWindow self w _ hw]
  simp [gtk_window_resize, gtk_window_move]

/-- Handling the same payload a second time gives the same response, position and size. -/
theorem set_window_frame_twice (undef : Double → Int) (self : FlWebRendererPlugin)
    (args : FlValue) :
    (set_window_frame undef (set_window_frame undef self args).2 args).1 =
        (set_window_frame undef self args).1 ∧
      (get_window (set_window_frame undef (set_window_frame undef self args).2 args).2).map
          GtkWindow.position =
        (get_window (set_window_frame undef self args).2).map GtkWindow.position ∧
      (get_window (set_window_frame undef (set_window_frame undef self args).2 args).2).map
          GtkWindow.size =
        (get_window (set_window_frame undef self args).2).map GtkWindow.size := by
  by_cases h : ∃ l, args = .list l ∧ l.length = 4
  · obtain ⟨l, rfl, h4⟩ := h
    cases hw : get_window self with
    | none =>
      rw [set_window_frame_no_window undef self l h4 hw]
      simp only []
      rw [set_window_frame_no_window undef self l h4 hw]
      exact ⟨rfl, rfl, rfl⟩
    | some w =>
      have h1 := set_window_frame_window_after undef self l h4 w hw
      have h2 := set_window_frame_window_after undef (set_window_frame undef self (.list l)).2
        l h4 _ h1
      have r1 := set_window_frame_window undef self l h4 w hw
      have r2 := set_window_frame_window undef (set_window_frame undef self (.list l)).2
        l h4 _ h1
      refine ⟨?_, ?_, ?_⟩
      · rw [r2, r1]
      · rw [h2, h1]; rfl
      · rw [h2, h1]; rfl
  · rw [set_window_frame_bad_shape undef self args h]
    simp only []
    rw [set_window_frame_bad_shape undef self args h]
    exact ⟨rfl, rfl, rfl⟩

/-- C7: handling "setWindowFrame" twice in a row with the same payload gives the same response
and leaves the window with the same position and size as handling it once, for every payload
and every starting state; this holds for the handler and for the dispatcher that calls it. The
window honours move and resize exactly. -/
theorem set_window_frame_idempotent (undef : Double → Int) (self : FlWebRendererPlugin)
    (args : FlValue) :
    ((set_window_frame undef (set_window_frame undef self args).2 args).1 =
        (set_window_frame undef self args).1 ∧
      (get_window (set_window_frame undef (set_window_frame undef self args).2 args).2).map
          GtkWindow.position =
        (get_window (set_window_frame undef self args).2).map GtkWindow.position ∧
      (get_window (set_window_frame undef (set_window_frame undef self args).2 args).2).map
          GtkWindow.size =
        (get_window (set_window_frame undef self args).2).map GtkWindow.size) ∧
    ((method_call_cb undef
          (method_call_cb undef self
            { name := "setWindowFrame", args := args, responses := [] }).1
          { name := "setWindowFrame", args := args, responses := [] }).2.responses =
        (method_call_cb undef self
          { name := "setWindowFrame", args := args, responses := [] }).2.responses ∧
      (get_window (method_call_cb undef
          (method_call_cb undef self
            { name := "setWindowFrame", args := args, responses := [] }).1
          { name := "setWindowFrame", args := args, responses := [] }).1).map
          GtkWindow.position =
        (get_window (method_call_cb undef self
          { name := "setWindowFrame", args := args, responses := [] }).1).map
          GtkWindow.position ∧
      (get_window (method_call_cb undef
          (method_call_cb undef self
            { name := "setWindowFrame", args := args, responses := [] }).1
          { name := "setWindowFrame", args := args, responses := [] }).1).map
          GtkWindow.size =
        (get_window (method_call_cb undef self
          { name := "setWindowFrame", args := args, responses := [] }).1).map
          GtkWindow.size) := by
  have h := set_window_frame_twice undef self args
  refine ⟨h, ?_⟩
  rw [method_call_cb_recognised undef self "setWindowFrame" args [] rfl]
  simp only []
  rw [method_call_cb_recognised undef _ "setWindowFrame" args [] rfl]
  simp only [List.nil_append]
  exact ⟨by rw [h.1], h.2.1, h.2.2⟩

/-- C10: the handler has exactly three outcomes, decided by the shape of the payload and by
whether a window is resolvable, never by the values of the elements: "Bad Arguments" exactly
when the payload is not a generic list of length 4; otherwise "No Screen" exactly when no
window is resolvable; otherwise success. Two lists of length 4 always get the same response,
and the window is mutated (it receives a move and a resize) exactly when the response is
success; otherwise the instance is left as it was. -/
theorem set_window_frame_outcomes (undef : Double → Int) (self : FlWebRendererPlugin)
    (args : FlValue) :
    ((set_window_frame undef self args).1 = badArguments ∨
        (set_window_frame undef self args).1 = noScreen ∨
        (set_window_frame undef self args).1 = FlMethodResponse.success none) ∧
      ((set_window_frame undef self args).1 = badArguments ↔
        ¬ ∃ l, args = .list l ∧ l.length = 4) ∧
      ((set_window_frame undef self args).1 = noScreen ↔
        (∃ l, args = .list l ∧ l.length = 4) ∧ get_window self = none) ∧
      ((set_window_frame undef self args).1 = FlMethodResponse.success none ↔
        (∃ l, args = .list l ∧ l.length = 4) ∧ get_window self ≠ none) ∧
      (∀ (l l' : List FlValue) (undef' : Double → Int), l.length = 4 → l'.length = 4 →
        (set_window_frame undef self (.list l)).1 =
          (set_window_frame undef' self (.list l')).1) ∧
      ((set_window_frame undef self args).1.isSuccess = true ↔
        get_window (set_window_frame undef self args).2 ≠ get_window self) ∧
      ((set_window_frame undef self args).1.isSuccess = true →
        ∃ w x y width height, get_window self = some w ∧
          get_window (set_window_frame undef self args).2 =
            some { x := x, y := y, width := width, height := height,
                   requests := w.requests ++
                     [GtkRequest.move x y, GtkRequest.resize width height] }) ∧
      ((set_window_frame undef self args).1.isSuccess = false →
        (set_window_frame undef self args).2 = self) := by
  have hpair : ∀ (l l' : List FlValue) (undef' : Double → Int), l.length = 4 → l'.length = 4 →
      (set_window_frame undef self (.list l)).1 =
        (set_window_frame undef' self (.list l')).1 := by
    intro l l' undef' h4 h4'
    cases hw : get_window self with
    | none =>
      rw [set_window_frame_no_window undef self l h4 hw,
        set_window_frame_no_window undef' self l' h4' hw]
    | some w =>
      rw [set_window_frame_window undef self l h4 w hw,
        set_window_frame_window undef' self l' h4' w hw]
  by_cases h : ∃ l, args = .list l ∧ l.length = 4
  · obtain ⟨l, hl, h4⟩ := h
    subst hl
    cases hw : get_window self with
    | none =>
      have hr := set_window_frame_no_window undef self l h4 hw
      rw [hr]
      refine ⟨by simp, ?_, ?_, ?_, hpair, ?_, ?_, ?_⟩
      · simp [h4, noScreen, badArguments]
      · simp [h4]
      · simp [noScreen]
      · simp [noScreen, FlMethodResponse.isSuccess, hw]
      · simp [noScreen, FlMethodResponse.isSuccess]
      · simp
    | some w =>
      have hr := set_window_frame_window undef self l h4 w hw
      have ha := set_window_frame_window_after undef self l h4 w hw
      rw [hr] at ha
      rw [hr]
      refine ⟨by simp, ?_, ?_, ?_, hpair, ?_, ?_, ?_⟩
      · simp [h4, badArguments]
      · simp [noScreen]
      · simp [h4]
      · simp only [FlMethodResponse.isSuccess, true_iff]
        rw [ha]
        intro heq
        have hreq := congrArg (Option.map (fun v => v.requests.length)) heq
        simp at hreq
      · intro _
        exact ⟨w, _, _, _, _, rfl, ha⟩
      · simp [FlMethodResponse.isSuccess]
  · have hr := set_window_frame_bad_shape undef self args h
    rw [hr]
    refine ⟨by simp, ?_, ?_, ?_, hpair, ?_, ?_, ?_⟩
    · simp [h]
    · simp [h, noScreen, badArguments]
    · simp [h, badArguments]
    · simp [badArguments, FlMethodResponse.isSuccess]
    · simp [badArguments, FlMethodResponse.isSuccess]
    · simp

end WebRenderer
